import Mathlib

/-!
Verification of the `vault-plugin-secrets-oauthapp` credential store and
provider abstraction.  The Go source is embedded shallowly: pure helpers
become Lean functions, the storage collaborator becomes an explicit
association list threaded through each operation, and the network calls
(token exchange, refresh, client-credentials fetch) become explicit outcome
parameters.  Each handler additionally emits an event trace recording the
order of lock acquisition, network exchanges and storage mutations, so that
locking-discipline statements can be expressed over the trace.
-/

namespace OAuthApp

/-! ## Provider layer (src/pkg/provider/basic.go) -/

/-- Client-authentication style, mirroring `oauth2.AuthStyle`. -/
inductive AuthStyle
  | autoDetect
  | inHeader
  | inParams
deriving DecidableEq, Repr

/-- An OAuth 2.0 endpoint pair, mirroring `oauth2.Endpoint`. -/
structure Endpoint where
  authURL : String
  tokenURL : String
  authStyle : AuthStyle := .autoDetect
deriving DecidableEq, Repr

/-- Mirrors `oauth2.Config` (the fields the plugin uses). -/
structure OAuth2Config where
  clientID : String
  clientSecret : String
  endpoint : Endpoint
  redirectURL : String := ""
  scopes : List String := []
deriving DecidableEq, Repr

/-- Mirrors `clientcredentials.Config` (the fields the plugin uses). -/
structure ClientCredentialsConfig where
  clientID : String
  clientSecret : String
  tokenURL : String
  scopes : List String := []
deriving DecidableEq, Repr

/-- Stand-in for the external `*http.Client` collaborator; only its identity
matters to the embedded builders. -/
structure HTTPClient where
  id : Nat
deriving DecidableEq, Repr

/-- Errors produced by the provider package.  `errNoProviderWithVersion`,
`errNoOptions`, `errAuthRequired` and `OptionError` are sentinel values whose
behaviour is fully determined by their uses in `basic.go`. -/
inductive ProviderError
  | errNoProviderWithVersion
  | errNoOptions
  | errAuthRequired
  | optionError (option : String) (message : String)
deriving DecidableEq, Repr

/-- Mirrors the `basic` provider struct of `basic.go`. -/
structure Basic where
  vsn : Int
  endpoint : Endpoint
  isAuthorizationRequired : Bool := false
deriving DecidableEq, Repr

/-- Mirrors `basicExchangeConfigBuilder`. -/
structure ExchangeConfigBuilder where
  config : OAuth2Config
  client : Option HTTPClient := none
deriving DecidableEq, Repr

/-- Mirrors `basicTokenConfigBuilder`. -/
structure TokenConfigBuilder where
  config : ClientCredentialsConfig
  client : Option HTTPClient := none
deriving DecidableEq, Repr

/-- Mirrors `basicAuthCodeURLConfigBuilder`. -/
structure AuthCodeURLConfigBuilder where
  config : OAuth2Config
deriving DecidableEq, Repr

def ExchangeConfigBuilder.withHTTPClient (cb : ExchangeConfigBuilder)
    (client : HTTPClient) : ExchangeConfigBuilder :=
  { cb with client := some client }

def ExchangeConfigBuilder.withRedirectURL (cb : ExchangeConfigBuilder)
    (redirectURL : String) : ExchangeConfigBuilder :=
  { cb with config := { cb.config with redirectURL := redirectURL } }

def TokenConfigBuilder.withScopes (cb : TokenConfigBuilder)
    (scopes : List String) : TokenConfigBuilder :=
  { cb with config := { cb.config with scopes := scopes } }

/-- `(*basic).Version` from `basic.go`. -/
def Basic.Version (b : Basic) : Int :=
  b.vsn

/-- `(*basic).IsAuthorizationRequired` from `basic.go`. -/
def Basic.IsAuthorizationRequired (b : Basic) : Bool :=
  b.isAuthorizationRequired

/-- `(*basic).NewAuthCodeURLConfigBuilder` from `basic.go`. -/
def Basic.NewAuthCodeURLConfigBuilder (b : Basic) (clientID : String) :
    AuthCodeURLConfigBuilder :=
  { config := { clientID := clientID, clientSecret := "", endpoint := b.endpoint } }

/-- `(*basic).NewExchangeConfigBuilder` from `basic.go`. -/
def Basic.NewExchangeConfigBuilder (b : Basic) (clientID clientSecret : String) :
    ExchangeConfigBuilder :=
  { config := { clientID := clientID, clientSecret := clientSecret, endpoint := b.endpoint } }

/-- `(*basic).NewTokenConfigBuilder` from `basic.go`: rejected with
`ErrAuthRequired` when the provider requires authorization, otherwise a
client-credentials builder over the endpoint's token URL. -/
def Basic.NewTokenConfigBuilder (b : Basic) (clientID clientSecret : String) :
    Except ProviderError TokenConfigBuilder :=
  if b.IsAuthorizationRequired then
    .error .errAuthRequired
  else
    .ok { config := { clientID := clientID, clientSecret := clientSecret,
                      tokenURL := b.endpoint.tokenURL } }

/-- Option maps (`map[string]string` in Go): association lists where a missing
key reads as the empty string, as Go map indexing does. -/
def optGet (opts : List (String × String)) (k : String) : String :=
  ((opts.lookup k).getD "")

/-- `basicFactory` from `basic.go`: versions -1 and 1 accepted, no options
allowed, provider constructed with schema version 1. -/
def basicFactory (endpoint : Endpoint) (vsn : Int)
    (opts : List (String × String)) : Except ProviderError Basic :=
  if vsn = -1 ∨ vsn = 1 then
    if opts.length ≠ 0 then
      .error .errNoOptions
    else
      .ok { vsn := 1, endpoint := endpoint }
  else
    .error .errNoProviderWithVersion

/-- The endpoint data produced by `microsoft.AzureADEndpoint(tenant)`
(endpoint URLs are data, external to the core logic). -/
def azureADEndpoint (tenant : String) : Endpoint :=
  { authURL := "https://login.microsoftonline.com/" ++ tenant ++ "/oauth2/v2.0/authorize",
    tokenURL := "https://login.microsoftonline.com/" ++ tenant ++ "/oauth2/v2.0/token" }

/-- `azureADFactory` from `basic.go`: requires a non-empty `tenant` option. -/
def azureADFactory (vsn : Int) (opts : List (String × String)) :
    Except ProviderError Basic :=
  if vsn = -1 ∨ vsn = 1 then
    let tenant := optGet opts "tenant"
    if tenant = "" then
      .error (.optionError "tenant" "tenant is required")
    else
      .ok { vsn := 1, endpoint := azureADEndpoint tenant }
  else
    .error .errNoProviderWithVersion

/-- Result of the external OIDC discovery collaborator (`oidc.NewProvider`). -/
structure OIDCEndpoints where
  authURL : String
  tokenURL : String
deriving DecidableEq, Repr

/-- `auth_style` option parsing inside `customFactory`. -/
def authStyleOf : String → Except ProviderError AuthStyle
  | "in_header" => .ok .inHeader
  | "in_params" => .ok .inParams
  | "" => .ok .autoDetect
  | _ => .error (.optionError "auth_style"
      "unknown authentication style; expected one of \"in_header\" or \"in_params\"")

/-- `customFactory` from `basic.go`, parameterized by the outcome of the
external discovery collaborator.  Registered as `custom` (authorization
required) and `custom_client_credentials` (authorization not required). -/
def customFactory (isAuthorizationRequired : Bool)
    (discover : String → Except String OIDCEndpoints)
    (vsn : Int) (opts : List (String × String)) : Except ProviderError Basic :=
  if vsn = -1 ∨ vsn = 1 then
    let discoveryURL := optGet opts "discovery_url"
    let resolved : Except ProviderError (String × String) :=
      if discoveryURL ≠ "" then
        match discover discoveryURL with
        | .error e => .error (.optionError "discovery_url" ("error making new provider: " ++ e))
        | .ok ep => .ok (ep.authURL, ep.tokenURL)
      else
        .ok (optGet opts "auth_code_url", optGet opts "token_url")
    match resolved with
    | .error e => .error e
    | .ok (authURL, tokenURL) =>
      if isAuthorizationRequired ∧ authURL = "" then
        .error (.optionError "auth_code_url" "authorization code URL is required")
      else if tokenURL = "" then
        .error (.optionError "token_url" "token URL is required")
      else
        match authStyleOf (optGet opts "auth_style") with
        | .error e => .error e
        | .ok authStyle =>
          .ok { vsn := 1,
                endpoint := { authURL := authURL, tokenURL := tokenURL, authStyle := authStyle },
                isAuthorizationRequired := isAuthorizationRequired }
  else
    .error .errNoProviderWithVersion

/-- The static GitHub endpoint (`github.Endpoint`), used as sample data. -/
def githubEndpoint : Endpoint :=
  { authURL := "https://github.com/login/oauth/authorize",
    tokenURL := "https://github.com/login/oauth/access_token" }

/-! ## SHA-1 (`crypto/sha1`, the external hash used by `credKey`)

Bytes are `Nat`s below 256; 32-bit words are `Nat`s reduced mod `2^32`. -/

/-- Truncate to a 32-bit word. -/
def w32 (n : Nat) : Nat :=
  n % 4294967296

/-- Rotate a 32-bit word left by `s` bits (for `n < 2^32`, `s ≤ 31`). -/
def rotl32 (n s : Nat) : Nat :=
  ((n <<< s) ||| (n >>> (32 - s))) % 4294967296

/-- The SHA-1 round function `f_t`. -/
def sha1F (t b c d : Nat) : Nat :=
  if t < 20 then (b &&& c) ||| ((4294967295 - b) &&& d)
  else if t < 40 then b ^^^ c ^^^ d
  else if t < 60 then (b &&& c) ||| (b &&& d) ||| (c &&& d)
  else b ^^^ c ^^^ d

/-- The SHA-1 round constants `K_t`. -/
def sha1K (t : Nat) : Nat :=
  if t < 20 then 1518500249
  else if t < 40 then 1859775393
  else if t < 60 then 2400959708
  else 3395469782

/-- Big-endian decomposition of a 32-bit word into 4 bytes. -/
def word32ToBytesBE (w : Nat) : List Nat :=
  [w / 16777216 % 256, w / 65536 % 256, w / 256 % 256, w % 256]

/-- Big-endian decomposition of a 64-bit word into 8 bytes. -/
def word64ToBytesBE (w : Nat) : List Nat :=
  [w / 72057594037927936 % 256, w / 281474976710656 % 256,
   w / 1099511627776 % 256, w / 4294967296 % 256,
   w / 16777216 % 256, w / 65536 % 256, w / 256 % 256, w % 256]

/-- Big-endian composition of 4 bytes into a 32-bit word. -/
def word32FromBytesBE (b0 b1 b2 b3 : Nat) : Nat :=
  ((b0 * 256 + b1) * 256 + b2) * 256 + b3

/-- SHA-1 padding: append `0x80`, zero bytes, and the 64-bit bit length,
bringing the total length to a multiple of 64 bytes. -/
def sha1Pad (msg : List Nat) : List Nat :=
  let zeros := (55 + 64 - msg.length % 64) % 64
  msg ++ 128 :: (List.replicate zeros 0 ++ word64ToBytesBE (8 * msg.length))

/-- Split a (padded) message into its 64-byte blocks; `k` counts the blocks. -/
def chunksGo : Nat → List Nat → List (List Nat)
  | 0, _ => []
  | k + 1, l => l.take 64 :: chunksGo k (l.drop 64)

def chunks (l : List Nat) : List (List Nat) :=
  chunksGo (l.length / 64) l

/-- The 16 initial words `W_0 .. W_15` of a block's message schedule. -/
def initW (block : List Nat) : List Nat :=
  (List.range 16).map fun i =>
    word32FromBytesBE (block.getD (4 * i) 0) (block.getD (4 * i + 1) 0)
      (block.getD (4 * i + 2) 0) (block.getD (4 * i + 3) 0)

/-- Expand the message schedule; `acc` holds the words produced so far in
reverse order, so `W_{t-3}, W_{t-8}, W_{t-14}, W_{t-16}` are at indices
2, 7, 13, 15. -/
def expandGo : Nat → List Nat → List Nat
  | 0, acc => acc
  | k + 1, acc =>
    expandGo k
      (rotl32 ((acc.getD 2 0) ^^^ (acc.getD 7 0) ^^^ (acc.getD 13 0) ^^^ (acc.getD 15 0)) 1 :: acc)

/-- The 80-word message schedule of a block, in order `W_0 .. W_79`. -/
def schedule (block : List Nat) : List Nat :=
  (expandGo 64 (initW block).reverse).reverse

/-- One SHA-1 compression round. -/
def sha1Round (t w : Nat) (st : Nat × Nat × Nat × Nat × Nat) :
    Nat × Nat × Nat × Nat × Nat :=
  let (a, b, c, d, e) := st
  (w32 (rotl32 a 5 + sha1F t b c d + e + sha1K t + w), a, rotl32 b 30, c, d)

/-- Compress one 64-byte block into the running hash state. -/
def processBlock (hs : Nat × Nat × Nat × Nat × Nat) (block : List Nat) :
    Nat × Nat × Nat × Nat × Nat :=
  let (h0, h1, h2, h3, h4) := hs
  let fin := (schedule block).enum.foldl (fun st tw => sha1Round tw.1 tw.2 st)
    (h0, h1, h2, h3, h4)
  (w32 (h0 + fin.1), w32 (h1 + fin.2.1), w32 (h2 + fin.2.2.1),
   w32 (h3 + fin.2.2.2.1), w32 (h4 + fin.2.2.2.2))

/-- The SHA-1 initialization vector. -/
def sha1Init : Nat × Nat × Nat × Nat × Nat :=
  (1732584193, 4023233417, 2562383102, 271733878, 3285377520)

/-- `sha1.Sum`: the 20-byte SHA-1 digest of a byte sequence. -/
def sha1 (msg : List Nat) : List Nat :=
  let hs := (chunks (sha1Pad msg)).foldl processBlock sha1Init
  word32ToBytesBE hs.1 ++ word32ToBytesBE hs.2.1 ++ word32ToBytesBE hs.2.2.1 ++
    word32ToBytesBE hs.2.2.2.1 ++ word32ToBytesBE hs.2.2.2.2

/-- UTF-8 encoding of a Unicode code point, as Go's `[]byte(string)`. -/
def utf8Bytes (c : Nat) : List Nat :=
  if c < 128 then [c]
  else if c < 2048 then [192 + c / 64, 128 + c % 64]
  else if c < 65536 then [224 + c / 4096, 128 + c / 64 % 64, 128 + c % 64]
  else [240 + c / 262144, 128 + c / 4096 % 64, 128 + c / 64 % 64, 128 + c % 64]

/-- The UTF-8 bytes of a string (Go's `[]byte(name)`). -/
def strBytes (s : String) : List Nat :=
  (s.data.map fun c => utf8Bytes c.toNat).flatten

/-- Lowercase hex digit for `n < 16`, as Go's `%x` verb. -/
def hexDigit (n : Nat) : Char :=
  if n < 10 then Char.ofNat (48 + n) else Char.ofNat (87 + n)

/-- The two hex digits of one byte. -/
def hexByte (b : Nat) : List Char :=
  [hexDigit (b / 16), hexDigit (b % 16)]

/-- Lowercase hex characters of a byte sequence. -/
def hexChars (bs : List Nat) : List Char :=
  (bs.map hexByte).flatten

/-- Lowercase hex string of a byte sequence (Go's `fmt.Sprintf("%x", bs)`). -/
def hexStr (bs : List Nat) : String :=
  ⟨hexChars bs⟩

/-- `credKey` from `path_creds.go`: SHA-1 the name, then shard the digest into
its first 2 bytes, next 2 bytes, and remaining bytes, hex-encoded and joined
under the `creds/` storage prefix. -/
def credKey (name : String) : String :=
  let hash := sha1 (strBytes name)
  "creds/" ++ hexStr (hash.take 2) ++ "/" ++ hexStr ((hash.drop 2).take 2) ++ "/" ++
    hexStr (hash.drop 4)

/-! ## Backend credential store (src/pkg/backend/path_creds.go)

The storage collaborator is a generic key-value store with atomic single-key
get/put/delete; it is modelled as an association list.  Network outcomes of
the code exchange, the refresh exchange and the client-credentials fetch are
explicit parameters.  Each handler also emits an event trace recording lock
operations, network exchanges and storage mutations in program order. -/

/-- An `oauth2.Token` as persisted by the plugin. Expiry is in seconds;
`0` stands for the zero (never-expiring) time. -/
structure OAuthToken where
  accessToken : String
  tokenType : String
  refreshToken : String
  expiry : Nat
deriving DecidableEq, Repr

/-- `oauth2.Token.expired`: false for the zero expiry, otherwise the token
counts as expired `expiryDelta = 10s` ahead of the actual expiry. -/
def tokenExpired (now : Nat) (t : OAuthToken) : Bool :=
  t.expiry ≠ 0 && t.expiry < now + 10

/-- `oauth2.Token.Valid`: non-empty access token and not expired. -/
def tokenValid (now : Nat) (t : OAuthToken) : Bool :=
  t.accessToken ≠ "" && !tokenExpired now t

/-- `oauth2.Token.Type`: canonicalizes the common token types and defaults
to `Bearer` when unset. -/
def tokenTypeOf (t : OAuthToken) : String :=
  if t.tokenType.toLower = "bearer" then "Bearer"
  else if t.tokenType.toLower = "mac" then "MAC"
  else if t.tokenType.toLower = "basic" then "Basic"
  else if t.tokenType ≠ "" then t.tokenType
  else "Bearer"

/-- The storage collaborator's state: an association list from keys to
persisted token records. -/
def Storage := List (String × OAuthToken)

instance : DecidableEq Storage :=
  inferInstanceAs (DecidableEq (List (String × OAuthToken)))

instance : Repr Storage :=
  inferInstanceAs (Repr (List (String × OAuthToken)))

/-- `Storage.Get`. -/
def stGet (st : Storage) (k : String) : Option OAuthToken :=
  ((st.find? fun e => e.1 == k).map fun e => e.2)

/-- `Storage.Put`: atomic single-key replace. -/
def stPut (st : Storage) (k : String) (v : OAuthToken) : Storage :=
  (k, v) :: (st.filter fun e => !(e.1 == k))

/-- `Storage.Delete`: removes the key if present; succeeds either way. -/
def stDelete (st : Storage) (k : String) : Storage :=
  (st.filter fun e => !(e.1 == k))

/-- Trace events emitted by the handlers, in program order. -/
inductive Event
  | exchange (config : OAuth2Config) (code : String)
  | refreshExchange (config : OAuth2Config) (refreshToken : String)
  | ccToken (scopes : List String)
  | lockAcquire
  | lockRelease
  | storagePut (key : String)
  | storageDelete (key : String)
deriving DecidableEq, Repr

/-- Network exchange events (suspension points), as opposed to lock and
storage events. -/
def isExchangeEvent : Event → Bool
  | .exchange _ _ => true
  | .refreshExchange _ _ => true
  | .ccToken _ => true
  | _ => false

/-- Storage mutation events. -/
def isStorageWrite : Event → Bool
  | .storagePut _ => true
  | .storageDelete _ => true
  | _ => false

/-- The sub-trace of events that occur while the mutual-exclusion lock is
held; `held` is the lock state entering the trace. -/
def eventsWhileLocked : Bool → List Event → List Event
  | _, [] => []
  | _, .lockAcquire :: rest => eventsWhileLocked true rest
  | _, .lockRelease :: rest => eventsWhileLocked false rest
  | held, e :: rest => (if held then [e] else []) ++ eventsWhileLocked held rest

/-- Checks that lock acquire/release events are well bracketed (never
re-acquired while held, never released while free, released at the end). -/
def bracketCheck : Bool → List Event → Bool
  | held, [] => !held
  | held, .lockAcquire :: rest => !held && bracketCheck true rest
  | held, .lockRelease :: rest => held && bracketCheck false rest
  | held, _ :: rest => bracketCheck held rest

/-- Outcome of a network token exchange (`Exchange` / `TokenSource().Token()`):
success, a provider-level `*oauth2.RetrieveError`, or any other error. -/
inductive ExchangeResult
  | ok (tok : OAuthToken)
  | retrieveError (msg : String)
  | transportError (msg : String)
deriving DecidableEq, Repr

/-- The stored configuration record fields the credential handlers use. -/
structure Config where
  clientID : String
  clientSecret : String
deriving DecidableEq, Repr

/-- A handler's result: the `(*logical.Response, error)` pair of the Go
handler, collapsed into one sum. -/
inductive CredsResponse
  | ok (accessToken : String) (tokenType : String) (expireTime : Option Nat)
  | errorResponse (msg : String)
  | none
  | internalError (msg : String)
deriving DecidableEq, Repr

/-- A handler's full outcome: response, post-state of storage, event trace. -/
structure OpResult where
  resp : CredsResponse
  storage : Storage
  events : List Event
deriving DecidableEq, Repr

/-- The update-operation field data (`framework.FieldData`): `some` means the
field was supplied by the caller (`GetOk`). -/
structure UpdateArgs where
  name : String
  code : Option String := .none
  refreshToken : Option String := .none
  redirectURL : Option String := .none
deriving DecidableEq, Repr

/-- `credsUpdateOperation` from `path_creds.go`.  `cfg` is the result of
`getConfig`, `prov` the result of `c.provider(registry)`, and
`exchangeOutcome`/`refreshOutcome` the network outcomes of the code and
refresh-token exchanges. -/
def credsUpdateOperation (cfg : Option Config) (prov : Except String Basic)
    (exchangeOutcome refreshOutcome : ExchangeResult) (args : UpdateArgs)
    (st : Storage) : OpResult :=
  match cfg with
  | .none => { resp := .errorResponse "not configured", storage := st, events := [] }
  | .some c =>
    match prov with
    | .error e => { resp := .internalError e, storage := st, events := [] }
    | .ok p =>
      if !p.IsAuthorizationRequired then
        { resp := .errorResponse
            "this provider does not support creating credentials. Use \"read\" command to retrieve token",
          storage := st, events := [] }
      else
        let key := credKey args.name
        let cb := p.NewExchangeConfigBuilder c.clientID c.clientSecret
        match args.code with
        | .some code =>
          if args.refreshToken.isSome then
            { resp := .errorResponse "cannot use both code and refresh_token",
              storage := st, events := [] }
          else
            let cb := match args.redirectURL with
              | .some r => cb.withRedirectURL r
              | .none => cb
            match exchangeOutcome with
            | .retrieveError _ =>
              { resp := .errorResponse "invalid code", storage := st,
                events := [.exchange cb.config code] }
            | .transportError m =>
              { resp := .internalError m, storage := st,
                events := [.exchange cb.config code] }
            | .ok tok =>
              { resp := .none, storage := stPut st key tok,
                events := [.exchange cb.config code, .lockAcquire, .storagePut key,
                  .lockRelease] }
        | .none =>
          match args.refreshToken with
          | .some rt =>
            match refreshOutcome with
            | .retrieveError _ =>
              { resp := .errorResponse "invalid refresh_token", storage := st,
                events := [.refreshExchange cb.config rt] }
            | .transportError m =>
              { resp := .internalError m, storage := st,
                events := [.refreshExchange cb.config rt] }
            | .ok tok =>
              { resp := .none, storage := stPut st key tok,
                events := [.refreshExchange cb.config rt, .lockAcquire, .storagePut key,
                  .lockRelease] }
          | .none =>
            { resp := .errorResponse "missing code or refresh_token", storage := st,
              events := [] }

/-- `credsDeleteOperation` from `path_creds.go`: takes the store lock,
unconditionally deletes the hashed key, and returns success. -/
def credsDeleteOperation (name : String) (st : Storage) : OpResult :=
  let key := credKey name
  { resp := .none, storage := stDelete st key,
    events := [.lockAcquire, .storageDelete key, .lockRelease] }

/-- Distinguished outcomes of `getRefreshToken`. -/
inductive ReadErr
  | notConfigured
  | invalidCredentials
  | internal (msg : String)
deriving DecidableEq, Repr

/-- Outcome of a refresh / client-credentials network call as classified by
the refresh engine: success, rejection of the stored client credentials, or
any other failure. -/
inductive RefreshOutcome
  | ok (tok : OAuthToken)
  | invalidClient
  | err (msg : String)
deriving DecidableEq, Repr

/-- Modelled from the spec: the backend's `getRefreshToken` (the refresh
engine called by `credsReadOperation`) is not among the provided sources;
this definition follows spec section 4.4's Read transition word for word.
Looks up the record by hashed key; distinguishes not-configured and
invalid-client-credentials outcomes; for a 3-legged provider a missing
record reads as absent while a 2-legged provider synthesizes a token on
demand and persists it; a still-valid token is returned with no network
call; an expired token with a refresh token is refreshed under the store
lock and re-persisted on success (the record left untouched on failure); an
expired token with no refresh token on a 3-legged provider is returned
as-is, now stale. -/
def getRefreshToken (cfg : Option Config) (prov : Except String Basic)
    (st : Storage) (key : String) (scopes : Option (List String)) (now : Nat)
    (refreshOutcome ccOutcome : RefreshOutcome) :
    Except ReadErr (Option OAuthToken) × Storage × List Event :=
  match cfg with
  | .none => (.error .notConfigured, st, [])
  | .some c =>
    match prov with
    | .error e => (.error (.internal e), st, [])
    | .ok p =>
      match stGet st key with
      | .none =>
        if p.IsAuthorizationRequired then
          (.ok .none, st, [])
        else
          let sc := scopes.getD []
          match ccOutcome with
          | .ok tok =>
            (.ok (.some tok), stPut st key tok,
              [.lockAcquire, .ccToken sc, .storagePut key, .lockRelease])
          | .invalidClient =>
            (.error .invalidCredentials, st, [.lockAcquire, .ccToken sc, .lockRelease])
          | .err m =>
            (.error (.internal m), st, [.lockAcquire, .ccToken sc, .lockRelease])
      | .some tok =>
        if tokenValid now tok then
          (.ok (.some tok), st, [])
        else if tok.refreshToken ≠ "" then
          let rcb := p.NewExchangeConfigBuilder c.clientID c.clientSecret
          match refreshOutcome with
          | .ok newTok =>
            (.ok (.some newTok), stPut st key newTok,
              [.lockAcquire, .refreshExchange rcb.config tok.refreshToken, .storagePut key,
                .lockRelease])
          | .invalidClient =>
            (.error .invalidCredentials, st,
              [.lockAcquire, .refreshExchange rcb.config tok.refreshToken, .lockRelease])
          | .err m =>
            (.error (.internal m), st,
              [.lockAcquire, .refreshExchange rcb.config tok.refreshToken, .lockRelease])
        else if p.IsAuthorizationRequired then
          (.ok (.some tok), st, [])
        else
          let sc := scopes.getD []
          match ccOutcome with
          | .ok newTok =>
            (.ok (.some newTok), stPut st key newTok,
              [.lockAcquire, .ccToken sc, .storagePut key, .lockRelease])
          | .invalidClient =>
            (.error .invalidCredentials, st, [.lockAcquire, .ccToken sc, .lockRelease])
          | .err m =>
            (.error (.internal m), st, [.lockAcquire, .ccToken sc, .lockRelease])

/-- `credsReadOperation` from `path_creds.go`: calls the refresh engine on
the hashed key, maps its distinguished outcomes to diagnostics, rejects a
returned-but-invalid token with a `token expired` error response, and
otherwise responds with the access token, its type, and the expiry when
non-zero. -/
def credsReadOperation (cfg : Option Config) (prov : Except String Basic)
    (st : Storage) (name : String) (scopes : Option (List String)) (now : Nat)
    (refreshOutcome ccOutcome : RefreshOutcome) : OpResult :=
  let key := credKey name
  let r := getRefreshToken cfg prov st key scopes now refreshOutcome ccOutcome
  match r.1 with
  | .error .notConfigured =>
    { resp := .errorResponse "not configured", storage := r.2.1, events := r.2.2 }
  | .error .invalidCredentials =>
    { resp := .errorResponse "invalid client credentials", storage := r.2.1, events := r.2.2 }
  | .error (.internal m) =>
    { resp := .internalError m, storage := r.2.1, events := r.2.2 }
  | .ok .none => { resp := .none, storage := r.2.1, events := r.2.2 }
  | .ok (.some tok) =>
    if !tokenValid now tok then
      { resp := .errorResponse "token expired", storage := r.2.1, events := r.2.2 }
    else
      { resp := .ok tok.accessToken (tokenTypeOf tok)
          (if tok.expiry = 0 then .none else .some tok.expiry),
        storage := r.2.1, events := r.2.2 }

/-! ## Sample data for concrete instantiations -/

def sampleConfig : Config :=
  { clientID := "client-id", clientSecret := "client-secret" }

def sampleProvider : Basic :=
  { vsn := 1, endpoint := githubEndpoint, isAuthorizationRequired := true }

def sampleExchangeConfig : OAuth2Config :=
  { clientID := "client-id", clientSecret := "client-secret", endpoint := githubEndpoint }

def sampleToken : OAuthToken :=
  { accessToken := "tok", tokenType := "bearer", refreshToken := "r1", expiry := 0 }

def expiredToken : OAuthToken :=
  { accessToken := "stale-token", tokenType := "bearer", refreshToken := "", expiry := 5 }

/-- Data responses (the `logical.Response{Data: ...}` case). -/
def isDataResponse : CredsResponse → Bool
  | .ok _ _ _ => true
  | _ => false

/-! ## Decoding the sharded hex key (for the `credKey` injectivity argument) -/

/-- Numeric value of a lowercase hex digit character. -/
def hexVal (c : Char) : Nat :=
  if 97 ≤ c.toNat then c.toNat - 87 else c.toNat - 48

/-- Decode a hex character list two digits at a time. -/
def decodePairs : List Char → Option (List Nat)
  | [] => some []
  | c1 :: c2 :: rest =>
    match decodePairs rest with
    | some bs => some ((16 * hexVal c1 + hexVal c2) :: bs)
    | none => none
  | _ :: [] => none

/-- Inverse of the hex-and-shard encoding of `credKey`: strips the 6-character
`creds/` prefix and the shard separators, then decodes hex pairs. -/
def unhexKey (s : String) : Option (List Nat) :=
  decodePairs ((s.data.drop 6).filter fun c => c != '/')

theorem hexVal_hexDigit : ∀ n, n < 16 → hexVal (hexDigit n) = n := by decide

theorem hexDigit_ne_slash : ∀ n, n < 16 → (hexDigit n != '/') = true := by decide

theorem hexChars_cons (b : Nat) (bs : List Nat) :
    hexChars (b :: bs) = hexDigit (b / 16) :: hexDigit (b % 16) :: hexChars bs := by
  simp [hexChars, hexByte]

theorem hexChars_append (a b : List Nat) :
    hexChars (a ++ b) = hexChars a ++ hexChars b := by
  simp [hexChars]

theorem decodePairs_hexChars (bs : List Nat) (h : ∀ b ∈ bs, b < 256) :
    decodePairs (hexChars bs) = some bs := by
  induction bs with
  | nil => rfl
  | cons b rest ih =>
    have hb : b < 256 := h b (List.mem_cons_self b rest)
    have hdiv : b / 16 < 16 := Nat.div_lt_of_lt_mul hb
    have hmod : b % 16 < 16 := Nat.mod_lt b (by omega)
    rw [hexChars_cons, decodePairs, ih fun x hx => h x (List.mem_cons_of_mem b hx),
      hexVal_hexDigit _ hdiv, hexVal_hexDigit _ hmod]
    have : 16 * (b / 16) + b % 16 = b := by omega
    rw [this]

theorem filter_hexChars (bs : List Nat) (h : ∀ b ∈ bs, b < 256) :
    (hexChars bs).filter (fun c => c != '/') = hexChars bs := by
  apply List.filter_eq_self.mpr
  intro c hc
  rcases List.mem_flatten.mp hc with ⟨l, hl, hcl⟩
  rcases List.mem_map.mp hl with ⟨b, hb, rfl⟩
  have hb256 : b < 256 := h b hb
  simp only [hexByte, List.mem_cons, List.not_mem_nil, or_false] at hcl
  rcases hcl with rfl | rfl
  · exact hexDigit_ne_slash (b / 16) (Nat.div_lt_of_lt_mul hb256)
  · exact hexDigit_ne_slash (b % 16) (Nat.mod_lt b (by omega))

theorem word32ToBytesBE_lt (w : Nat) : ∀ b ∈ word32ToBytesBE w, b < 256 := by
  intro b hb
  simp only [word32ToBytesBE, List.mem_cons, List.not_mem_nil, or_false] at hb
  rcases hb with rfl | rfl | rfl | rfl <;> exact Nat.mod_lt _ (by omega)

theorem sha1_byte_lt (msg : List Nat) : ∀ b ∈ sha1 msg, b < 256 := by
  intro b hb
  unfold sha1 at hb
  simp only [List.mem_append] at hb
  rcases hb with ((((h | h) | h) | h) | h) <;> exact word32ToBytesBE_lt _ b h

theorem data_hexStr (bs : List Nat) : (hexStr bs).data = hexChars bs :=
  rfl

theorem unhexKey_shard (h : List Nat) (hlt : ∀ b ∈ h, b < 256) :
    unhexKey ("creds/" ++ hexStr (h.take 2) ++ "/" ++ hexStr ((h.drop 2).take 2) ++ "/" ++
      hexStr (h.drop 4)) = some h := by
  have h1 : ∀ b ∈ h.take 2, b < 256 := fun b hb => hlt b (List.mem_of_mem_take hb)
  have h2 : ∀ b ∈ (h.drop 2).take 2, b < 256 :=
    fun b hb => hlt b (List.mem_of_mem_drop (List.mem_of_mem_take hb))
  have h3 : ∀ b ∈ h.drop 4, b < 256 := fun b hb => hlt b (List.mem_of_mem_drop hb)
  have hc : ("creds/" : String).data = ['c', 'r', 'e', 'd', 's', '/'] := rfl
  have hs : ("/" : String).data = ['/'] := rfl
  unfold unhexKey
  simp only [String.data_append, data_hexStr, hc, hs, List.cons_append, List.nil_append,
    List.append_assoc, List.drop_succ_cons, List.drop_zero, List.filter_append,
    List.filter_cons, bne_self_eq_false, Bool.false_eq_true, if_false,
    filter_hexChars _ h1, filter_hexChars _ h2, filter_hexChars _ h3]
  rw [← hexChars_append, ← hexChars_append]
  have hsplit : h.take 2 ++ ((h.drop 2).take 2 ++ h.drop 4) = h := by
    have hd : h.drop 4 = (h.drop 2).drop 2 := by rw [List.drop_drop]
    rw [hd, List.take_append_drop, List.take_append_drop]
  rw [hsplit]
  exact decodePairs_hexChars _ hlt

theorem unhexKey_credKey (n : String) :
    unhexKey (credKey n) = some (sha1 (strBytes n)) :=
  unhexKey_shard (sha1 (strBytes n)) (sha1_byte_lt (strBytes n))

/-- C5: `credKey` is the SHA-1 hash of the name, hex-encoded and sharded as
`creds/<first 2 bytes>/<next 2 bytes>/<remaining bytes>`; being a pure
function of the name it is deterministic, and two names receive the same key
only when their SHA-1 digests coincide. -/
theorem credKey_sha1_sharded (n1 n2 : String) :
    credKey n1 = "creds/" ++ hexStr ((sha1 (strBytes n1)).take 2) ++ "/" ++
        hexStr (((sha1 (strBytes n1)).drop 2).take 2) ++ "/" ++
        hexStr ((sha1 (strBytes n1)).drop 4)
    ∧ (credKey n1 = credKey n2 → sha1 (strBytes n1) = sha1 (strBytes n2)) := by
  refine ⟨rfl, fun h => ?_⟩
  have h1 := unhexKey_credKey n1
  have h2 := unhexKey_credKey n2
  rw [h, h2] at h1
  exact (Option.some.inj h1).symm

/-- C5 witness: both conjuncts instantiated at concrete names, with the
collision hypothesis discharged by computation. -/
theorem credKey_sha1_sharded_w :
    sha1 (strBytes "a") = sha1 (strBytes "a") :=
  (credKey_sha1_sharded "a" "a").2 rfl

/-- C8: `NewTokenConfigBuilder` returns the structured `ErrAuthRequired`
error exactly when the provider requires authorization, and a
client-credentials token builder over the endpoint's token URL with no error
exactly when authorization is not required. -/
theorem newTokenConfigBuilder_auth_gate (b : Basic) (clientID clientSecret : String) :
    (b.NewTokenConfigBuilder clientID clientSecret = .error .errAuthRequired
      ↔ b.IsAuthorizationRequired = true)
    ∧ (b.NewTokenConfigBuilder clientID clientSecret =
        .ok { config := { clientID := clientID, clientSecret := clientSecret,
                          tokenURL := b.endpoint.tokenURL } }
      ↔ b.IsAuthorizationRequired = false) := by
  unfold Basic.NewTokenConfigBuilder
  by_cases hb : b.IsAuthorizationRequired <;> simp [hb]

theorem stGet_stDelete_self (st : Storage) (k : String) :
    stGet (stDelete st k) k = .none := by
  induction st with
  | nil => rfl
  | cons e rest ih =>
    by_cases h : e.1 = k
    · simp [stDelete, List.filter_cons, h] at ih ⊢
      exact ih
    · have hne : (e.1 == k) = false := beq_eq_false_iff_ne.mpr h
      simp [stDelete, stGet, List.filter_cons, List.find?, hne]

theorem stDelete_stDelete (st : Storage) (k : String) :
    stDelete (stDelete st k) k = stDelete st k := by
  unfold stDelete
  apply List.filter_eq_self.mpr
  intro a ha
  exact (List.mem_filter.mp ha).2

/-- C9: deleting a credential by name always succeeds (response `nil, nil`),
removes the hashed key, and is idempotent: a second delete of the same name
also succeeds and leaves storage exactly as after the first, regardless of
whether the credential existed to begin with. -/
theorem credsDelete_idempotent (st : Storage) (name : String) :
    (credsDeleteOperation name st).resp = CredsResponse.none
    ∧ stGet (credsDeleteOperation name st).storage (credKey name) = .none
    ∧ (credsDeleteOperation name (credsDeleteOperation name st).storage).resp =
        CredsResponse.none
    ∧ (credsDeleteOperation name (credsDeleteOperation name st).storage).storage =
        (credsDeleteOperation name st).storage := by
  refine ⟨rfl, stGet_stDelete_self st (credKey name), rfl, ?_⟩
  show stDelete (stDelete st (credKey name)) (credKey name) = stDelete st (credKey name)
  exact stDelete_stDelete st (credKey name)

/-- C10: when the resolved provider does not require authorization
(2-legged / client-credentials), a write to `creds/{name}` is rejected with
the user-facing diagnostic before any exchange is attempted: the full result
is the error response with storage unchanged and an empty event trace. -/
theorem clientCredentials_update_rejected (c : Config) (p : Basic)
    (ex rf : ExchangeResult) (args : UpdateArgs) (st : Storage)
    (h : p.IsAuthorizationRequired = false) :
    credsUpdateOperation (some c) (.ok p) ex rf args st =
      { resp := .errorResponse
          "this provider does not support creating credentials. Use \"read\" command to retrieve token",
        storage := st, events := [] } := by
  simp [credsUpdateOperation, h]

/-- C10 witness. -/
theorem clientCredentials_update_rejected_w :
    credsUpdateOperation (some sampleConfig)
        (.ok { vsn := 1, endpoint := githubEndpoint, isAuthorizationRequired := false })
        (.ok sampleToken) (.ok sampleToken) { name := "x", code := some "authcode" } [] =
      { resp := .errorResponse
          "this provider does not support creating credentials. Use \"read\" command to retrieve token",
        storage := [], events := [] } :=
  clientCredentials_update_rejected sampleConfig
    { vsn := 1, endpoint := githubEndpoint, isAuthorizationRequired := false }
    (.ok sampleToken) (.ok sampleToken) { name := "x", code := some "authcode" } [] rfl

/-- C4: supplying both `code` and `refresh_token` on a credential write is an
immediate user error with no exchange performed (empty event trace) and no
storage mutation; supplying neither is the `missing code or refresh_token`
user error, likewise with no exchange and no mutation. -/
theorem code_refreshToken_exclusive (c : Config) (p : Basic)
    (ex rf : ExchangeResult) (st : Storage) (name codeV rt : String)
    (redir : Option String) (hauth : p.IsAuthorizationRequired = true) :
    credsUpdateOperation (some c) (.ok p) ex rf
        { name := name, code := some codeV, refreshToken := some rt,
          redirectURL := redir } st =
      { resp := .errorResponse "cannot use both code and refresh_token",
        storage := st, events := [] }
    ∧ credsUpdateOperation (some c) (.ok p) ex rf
        { name := name, code := .none, refreshToken := .none, redirectURL := redir } st =
      { resp := .errorResponse "missing code or refresh_token",
        storage := st, events := [] } := by
  constructor <;> simp [credsUpdateOperation, hauth]

/-- C4 witness. -/
theorem code_refreshToken_exclusive_w :
    credsUpdateOperation (some sampleConfig) (.ok sampleProvider)
        (.ok sampleToken) (.ok sampleToken)
        { name := "x", code := some "authcode", refreshToken := some "r1" } [] =
      { resp := .errorResponse "cannot use both code and refresh_token",
        storage := [], events := [] }
    ∧ credsUpdateOperation (some sampleConfig) (.ok sampleProvider)
        (.ok sampleToken) (.ok sampleToken) { name := "x" } [] =
      { resp := .errorResponse "missing code or refresh_token",
        storage := [], events := [] } :=
  code_refreshToken_exclusive sampleConfig sampleProvider (.ok sampleToken)
    (.ok sampleToken) [] "x" "authcode" "r1" .none rfl

/-- C3: when the provider rejects the supplied grant at the OAuth level
(an `oauth2.RetrieveError`), the write returns the user-facing
`invalid code` / `invalid refresh_token` diagnostic — not an internal
error — and storage is left exactly as it was, with no storage-write event
in the trace. -/
theorem invalid_grant_rejected_no_write (c : Config) (p : Basic) (st : Storage)
    (name codeV rt m1 m2 : String) (redir : Option String) (ex rf : ExchangeResult)
    (hauth : p.IsAuthorizationRequired = true) :
    (credsUpdateOperation (some c) (.ok p) (.retrieveError m1) rf
        { name := name, code := some codeV, refreshToken := .none,
          redirectURL := redir } st).resp = .errorResponse "invalid code"
    ∧ (credsUpdateOperation (some c) (.ok p) (.retrieveError m1) rf
        { name := name, code := some codeV, refreshToken := .none,
          redirectURL := redir } st).storage = st
    ∧ ((credsUpdateOperation (some c) (.ok p) (.retrieveError m1) rf
        { name := name, code := some codeV, refreshToken := .none,
          redirectURL := redir } st).events.all fun e => !isStorageWrite e) = true
    ∧ (credsUpdateOperation (some c) (.ok p) ex (.retrieveError m2)
        { name := name, code := .none, refreshToken := some rt,
          redirectURL := redir } st).resp = .errorResponse "invalid refresh_token"
    ∧ (credsUpdateOperation (some c) (.ok p) ex (.retrieveError m2)
        { name := name, code := .none, refreshToken := some rt,
          redirectURL := redir } st).storage = st
    ∧ ((credsUpdateOperation (some c) (.ok p) ex (.retrieveError m2)
        { name := name, code := .none, refreshToken := some rt,
          redirectURL := redir } st).events.all fun e => !isStorageWrite e) = true := by
  rcases redir with _ | r <;>
    simp [credsUpdateOperation, hauth, isStorageWrite]

/-- C3 witness. -/
theorem invalid_grant_rejected_no_write_w :
    (credsUpdateOperation (some sampleConfig) (.ok sampleProvider)
        (.retrieveError "oauth error body") (.ok sampleToken)
        { name := "a", code := some "X" } []).resp = .errorResponse "invalid code"
    ∧ (credsUpdateOperation (some sampleConfig) (.ok sampleProvider)
        (.retrieveError "oauth error body") (.ok sampleToken)
        { name := "a", code := some "X" } []).storage = [] := by
  have h := invalid_grant_rejected_no_write sampleConfig sampleProvider []
    "a" "X" "r1" "oauth error body" "m2" .none (.ok sampleToken) (.ok sampleToken) rfl
  exact ⟨h.1, h.2.1⟩

/-- C6: each registered factory (the basic named providers, Azure AD, and
the two custom variants) accepts exactly the versions `-1` (current/latest)
and `1`; any other version yields `ErrNoProviderWithVersion`; and every
successfully constructed provider reports `Version() = 1`, whichever of the
two accepted versions was requested. -/
theorem providerFactory_versions (endpoint : Endpoint)
    (discover : String → Except String OIDCEndpoints) (vsn : Int)
    (opts : List (String × String)) (b : Bool) :
    ((vsn ≠ -1 ∧ vsn ≠ 1) →
      basicFactory endpoint vsn opts = .error .errNoProviderWithVersion
      ∧ azureADFactory vsn opts = .error .errNoProviderWithVersion
      ∧ customFactory b discover vsn opts = .error .errNoProviderWithVersion)
    ∧ (∀ p, basicFactory endpoint vsn opts = .ok p → p.Version = 1)
    ∧ (∀ p, azureADFactory vsn opts = .ok p → p.Version = 1)
    ∧ (∀ p, customFactory b discover vsn opts = .ok p → p.Version = 1)
    ∧ ((vsn = -1 ∨ vsn = 1) →
        (opts = [] → basicFactory endpoint vsn opts = .ok { vsn := 1, endpoint := endpoint })
        ∧ (optGet opts "tenant" ≠ "" →
            azureADFactory vsn opts =
              .ok { vsn := 1, endpoint := azureADEndpoint (optGet opts "tenant") })
        ∧ (optGet opts "discovery_url" = "" → optGet opts "token_url" ≠ "" →
            optGet opts "auth_style" = "" → (b = true → optGet opts "auth_code_url" ≠ "") →
            customFactory b discover vsn opts =
              .ok { vsn := 1,
                    endpoint := { authURL := optGet opts "auth_code_url",
                                  tokenURL := optGet opts "token_url" },
                    isAuthorizationRequired := b })) := by
  by_cases hv : vsn = -1 ∨ vsn = 1
  · refine ⟨fun hc => absurd hv (by tauto), ?_, ?_, ?_, fun _ => ⟨?_, ?_, ?_⟩⟩
    · intro p hp
      simp only [basicFactory, if_pos hv] at hp
      split at hp
      · cases hp
      · cases hp
        rfl
    · intro p hp
      simp only [azureADFactory, if_pos hv] at hp
      split at hp
      · cases hp
      · cases hp
        rfl
    · intro p hp
      simp only [customFactory, if_pos hv] at hp
      repeat' split at hp
      all_goals cases hp
      all_goals rfl
    · intro hopts
      simp [basicFactory, hv, hopts]
    · intro htenant
      simp [azureADFactory, hv, htenant]
    · intro hdisc htok hstyle hauth
      rcases b with _ | _
      · simp [customFactory, hv, hdisc, htok, hstyle, authStyleOf]
      · simp [customFactory, hv, hdisc, htok, hstyle, hauth rfl, authStyleOf]
  · push_neg at hv
    refine ⟨fun _ => ?_, ?_, ?_, ?_, fun hc => absurd hc (by tauto)⟩
    · exact ⟨by simp [basicFactory, hv], by simp [azureADFactory, hv],
        by simp [customFactory, hv]⟩
    · intro p hp
      simp [basicFactory, hv] at hp
    · intro p hp
      simp [azureADFactory, hv] at hp
    · intro p hp
      simp [customFactory, hv] at hp

/-- C6 witness: the version gate and the `Version() = 1` guarantee at
concrete inputs for each factory. -/
theorem providerFactory_versions_w :
    basicFactory githubEndpoint 2 [] = .error .errNoProviderWithVersion
    ∧ basicFactory githubEndpoint (-1) [] = .ok { vsn := 1, endpoint := githubEndpoint }
    ∧ azureADFactory 1 [("tenant", "contoso")] =
        .ok { vsn := 1, endpoint := azureADEndpoint "contoso" }
    ∧ customFactory true (fun _ => .error "no network") 1
        [("auth_code_url", "https://a"), ("token_url", "https://t")] =
      .ok { vsn := 1, endpoint := { authURL := "https://a", tokenURL := "https://t" },
            isAuthorizationRequired := true } := by
  refine ⟨?_, ?_, ?_, ?_⟩
  · exact ((providerFactory_versions githubEndpoint (fun _ => .error "no network") 2 []
      true).1 (by decide)).1
  · exact ((providerFactory_versions githubEndpoint (fun _ => .error "no network") (-1) []
      true).2.2.2.2 (by decide)).1 rfl
  · exact ((providerFactory_versions githubEndpoint (fun _ => .error "no network") 1
      [("tenant", "contoso")] true).2.2.2.2 (by decide)).2.1 (by decide)
  · exact ((providerFactory_versions githubEndpoint (fun _ => .error "no network") 1
      [("auth_code_url", "https://a"), ("token_url", "https://t")] true).2.2.2.2
        (by decide)).2.2 (by decide) (by decide) (by decide) (fun _ => by decide)

/-- C7: an empty required option is rejected with a structured `OptionError`
naming the offending option: Azure AD with an empty `tenant` names `tenant`;
the custom factories without discovery and with an empty `token_url` name
`token_url` (for the authorization-required variant, once its
`auth_code_url` requirement is met); the authorization-required custom
factory with an empty `auth_code_url` names `auth_code_url`. -/
theorem factory_option_errors (vsn : Int) (opts : List (String × String))
    (discover : String → Except String OIDCEndpoints) (hv : vsn = -1 ∨ vsn = 1) :
    (optGet opts "tenant" = "" →
      azureADFactory vsn opts = .error (.optionError "tenant" "tenant is required"))
    ∧ (optGet opts "discovery_url" = "" → optGet opts "token_url" = "" →
        customFactory false discover vsn opts =
          .error (.optionError "token_url" "token URL is required"))
    ∧ (optGet opts "discovery_url" = "" → optGet opts "auth_code_url" ≠ "" →
        optGet opts "token_url" = "" →
        customFactory true discover vsn opts =
          .error (.optionError "token_url" "token URL is required"))
    ∧ (optGet opts "discovery_url" = "" → optGet opts "auth_code_url" = "" →
        customFactory true discover vsn opts =
          .error (.optionError "auth_code_url" "authorization code URL is required")) := by
  refine ⟨fun ht => ?_, fun hd htok => ?_, fun hd hac htok => ?_, fun hd hac => ?_⟩
  · simp [azureADFactory, hv, ht]
  · simp [customFactory, hv, hd, htok]
  · simp [customFactory, hv, hd, hac, htok]
  · simp [customFactory, hv, hd, hac]

/-- C7 witness. -/
theorem factory_option_errors_w :
    azureADFactory (-1) [] = .error (.optionError "tenant" "tenant is required")
    ∧ customFactory false (fun _ => .error "no network") 1 [] =
        .error (.optionError "token_url" "token URL is required")
    ∧ customFactory true (fun _ => .error "no network") 1 [("auth_code_url", "https://a")] =
        .error (.optionError "token_url" "token URL is required")
    ∧ customFactory true (fun _ => .error "no network") 1 [] =
        .error (.optionError "auth_code_url" "authorization code URL is required") := by
  refine ⟨?_, ?_, ?_, ?_⟩
  · exact (factory_option_errors (-1) [] (fun _ => .error "no network")
      (by decide)).1 (by decide)
  · exact (factory_option_errors 1 [] (fun _ => .error "no network")
      (by decide)).2.1 (by decide) (by decide)
  · exact (factory_option_errors 1 [("auth_code_url", "https://a")]
      (fun _ => .error "no network") (by decide)).2.2.1 (by decide) (by decide) (by decide)
  · exact (factory_option_errors 1 [] (fun _ => .error "no network")
      (by decide)).2.2.2 (by decide) (by decide)

set_option maxRecDepth 32768 in
/-- C2 counterexample: a stored credential whose access token is expired and
has no refresh token.  The read responds with the `token expired` error
response — an error diagnostic that does not carry the access token value —
refuting the claim that the now-expired token value is returned to the
caller with a staleness marker. -/
theorem expired_read_drops_token_cx :
    (credsReadOperation (some sampleConfig) (.ok sampleProvider)
        [(credKey "x", expiredToken)] "x" .none 100 (.err "unused") (.err "unused")).resp =
      CredsResponse.errorResponse "token expired"
    ∧ isDataResponse (credsReadOperation (some sampleConfig) (.ok sampleProvider)
        [(credKey "x", expiredToken)] "x" .none 100 (.err "unused") (.err "unused")).resp =
      false := by
  constructor <;> rfl

/-- C2 (amended): for a stored credential of an authorization-required
provider whose access token is invalid at read time and which has no stored
refresh token, the read returns the explicit `token expired` error response
(rather than silently returning nothing), leaves storage untouched and makes
no network call; the expired access token value itself is not included in
the response. -/
theorem expired_read_returns_error_response (c : Config) (p : Basic) (st : Storage)
    (name : String) (scopes : Option (List String)) (now : Nat) (tok : OAuthToken)
    (rf cc : RefreshOutcome)
    (hget : stGet st (credKey name) = some tok)
    (hval : tokenValid now tok = false)
    (hrt : tok.refreshToken = "")
    (hauth : p.IsAuthorizationRequired = true) :
    credsReadOperation (some c) (.ok p) st name scopes now rf cc =
      { resp := .errorResponse "token expired", storage := st, events := [] } := by
  simp [credsReadOperation, getRefreshToken, hget, hval, hrt, hauth]

set_option maxRecDepth 32768 in
/-- C2 witness. -/
theorem expired_read_returns_error_response_w :
    credsReadOperation (some sampleConfig) (.ok sampleProvider)
        [(credKey "x", expiredToken)] "x" .none 100 (.err "unused") (.err "unused") =
      { resp := .errorResponse "token expired",
        storage := [(credKey "x", expiredToken)], events := [] } :=
  expired_read_returns_error_response sampleConfig sampleProvider
    [(credKey "x", expiredToken)] "x" .none 100 expiredToken (.err "unused") (.err "unused")
    (by simp [stGet, List.find?]) (by decide) rfl rfl

set_option maxRecDepth 32768 in
/-- C1 counterexample: a successful create (`PUT creds/x code=authcode`).
Its event trace performs the network token exchange strictly before
acquiring the store lock: the exchange event is in the trace but not among
the events that occur while the lock is held, refuting the claim that the
create operation's exchange happens while holding the lock (and with it the
claim that at most one exchange can be in flight at a time). -/
theorem credsUpdate_exchange_outside_lock_cx :
    (credsUpdateOperation (some sampleConfig) (.ok sampleProvider) (.ok sampleToken)
        (.ok sampleToken) { name := "x", code := some "authcode" } []).events =
      [.exchange sampleExchangeConfig "authcode", .lockAcquire,
        .storagePut (credKey "x"), .lockRelease]
    ∧ Event.exchange sampleExchangeConfig "authcode" ∈
        (credsUpdateOperation (some sampleConfig) (.ok sampleProvider) (.ok sampleToken)
          (.ok sampleToken) { name := "x", code := some "authcode" } []).events
    ∧ Event.exchange sampleExchangeConfig "authcode" ∉
        eventsWhileLocked false
          (credsUpdateOperation (some sampleConfig) (.ok sampleProvider) (.ok sampleToken)
            (.ok sampleToken) { name := "x", code := some "authcode" } []).events := by
  have hev : (credsUpdateOperation (some sampleConfig) (.ok sampleProvider) (.ok sampleToken)
      (.ok sampleToken) { name := "x", code := some "authcode" } []).events =
      [.exchange sampleExchangeConfig "authcode", .lockAcquire,
        .storagePut (credKey "x"), .lockRelease] := rfl
  refine ⟨hev, ?_, ?_⟩
  · rw [hev]
    simp
  · rw [hev]
    intro hmem
    simp [eventsWhileLocked] at hmem

theorem getRefreshToken_lock_discipline (cfg : Option Config)
    (prov : Except String Basic) (st : Storage) (key : String)
    (scopes : Option (List String)) (now : Nat) (rfo cco : RefreshOutcome) :
    bracketCheck false (getRefreshToken cfg prov st key scopes now rfo cco).2.2 = true
    ∧ ∀ e ∈ (getRefreshToken cfg prov st key scopes now rfo cco).2.2,
        isStorageWrite e = true →
          e ∈ eventsWhileLocked false (getRefreshToken cfg prov st key scopes now rfo cco).2.2 := by
  rcases cfg with _ | c
  · simp [getRefreshToken, bracketCheck]
  rcases prov with e | p
  · simp [getRefreshToken, bracketCheck]
  rcases hst : stGet st key with _ | tok
  · by_cases hauth : p.IsAuthorizationRequired <;>
      rcases cco with t2 | _ | m2 <;>
      simp [getRefreshToken, hst, hauth, bracketCheck, eventsWhileLocked, isStorageWrite]
  · by_cases hauth : p.IsAuthorizationRequired <;>
      by_cases hval : tokenValid now tok <;>
      by_cases hrt : tok.refreshToken = "" <;>
      rcases rfo with t | _ | m <;> rcases cco with t2 | _ | m2 <;>
      simp [getRefreshToken, hst, hauth, hval, hrt, bracketCheck, eventsWhileLocked,
        isStorageWrite]

/-- C1 (amended): every mutating credential operation — create, the
refresh-on-read engine, and delete — acquires the single store-wide lock
before touching storage and releases it before returning: lock events are
well bracketed and every storage write occurs while the lock is held.  But
the create operation's network token exchange happens before the lock is
acquired, not while holding it: no exchange event of the create handler ever
occurs inside its locked region, so across create and delete the lock
serializes the storage mutations, not the in-flight exchanges. -/
theorem mutation_lock_discipline (cfg : Option Config) (prov : Except String Basic)
    (ex rf : ExchangeResult) (args : UpdateArgs) (name key : String)
    (st st2 st3 : Storage) (scopes : Option (List String)) (now : Nat)
    (rfo cco : RefreshOutcome) :
    bracketCheck false (credsUpdateOperation cfg prov ex rf args st).events = true
    ∧ (∀ e ∈ (credsUpdateOperation cfg prov ex rf args st).events,
        isStorageWrite e = true →
          e ∈ eventsWhileLocked false (credsUpdateOperation cfg prov ex rf args st).events)
    ∧ (∀ e ∈ (credsUpdateOperation cfg prov ex rf args st).events,
        isExchangeEvent e = true →
          e ∉ eventsWhileLocked false (credsUpdateOperation cfg prov ex rf args st).events)
    ∧ bracketCheck false (credsDeleteOperation name st2).events = true
    ∧ (∀ e ∈ (credsDeleteOperation name st2).events, isStorageWrite e = true →
        e ∈ eventsWhileLocked false (credsDeleteOperation name st2).events)
    ∧ bracketCheck false (getRefreshToken cfg prov st3 key scopes now rfo cco).2.2 = true
    ∧ (∀ e ∈ (getRefreshToken cfg prov st3 key scopes now rfo cco).2.2,
        isStorageWrite e = true →
          e ∈ eventsWhileLocked false
            (getRefreshToken cfg prov st3 key scopes now rfo cco).2.2) := by
  have hread := getRefreshToken_lock_discipline cfg prov st3 key scopes now rfo cco
  refine ⟨?_, ?_, ?_, rfl, ?_, hread.1, hread.2⟩
  · rcases cfg with _ | c
    · rfl
    rcases prov with e | p
    · rfl
    by_cases hauth : p.IsAuthorizationRequired
    all_goals rcases args with ⟨nm, _ | cv, _ | rv, rd⟩ <;>
      rcases ex with t | m | m <;> rcases rf with t2 | m2 | m2 <;>
      rcases rd with _ | rdv <;>
      simp [credsUpdateOperation, hauth, bracketCheck]
  · rcases cfg with _ | c
    · simp [credsUpdateOperation]
    rcases prov with e | p
    · simp [credsUpdateOperation]
    by_cases hauth : p.IsAuthorizationRequired
    all_goals rcases args with ⟨nm, _ | cv, _ | rv, rd⟩ <;>
      rcases ex with t | m | m <;> rcases rf with t2 | m2 | m2 <;>
      rcases rd with _ | rdv <;>
      simp [credsUpdateOperation, hauth, eventsWhileLocked, isStorageWrite]
  · rcases cfg with _ | c
    · simp [credsUpdateOperation]
    rcases prov with e | p
    · simp [credsUpdateOperation]
    by_cases hauth : p.IsAuthorizationRequired
    all_goals rcases args with ⟨nm, _ | cv, _ | rv, rd⟩ <;>
      rcases ex with t | m | m <;> rcases rf with t2 | m2 | m2 <;>
      rcases rd with _ | rdv <;>
      simp [credsUpdateOperation, hauth, eventsWhileLocked, isExchangeEvent]
  · intro e he hw
    simp only [credsDeleteOperation] at he ⊢
    simp [eventsWhileLocked] at he ⊢
    rcases he with rfl | rfl | rfl <;> simp_all [isStorageWrite, eventsWhileLocked]

set_option maxRecDepth 32768 in
/-- C1 amended-claim witness. -/
theorem mutation_lock_discipline_w :
    Event.storagePut (credKey "x") ∈
      eventsWhileLocked false
        (credsUpdateOperation (some sampleConfig) (.ok sampleProvider) (.ok sampleToken)
          (.ok sampleToken) { name := "x", code := some "authcode" } []).events := by
  have hev : (credsUpdateOperation (some sampleConfig) (.ok sampleProvider) (.ok sampleToken)
      (.ok sampleToken) { name := "x", code := some "authcode" } []).events =
      [.exchange sampleExchangeConfig "authcode", .lockAcquire,
        .storagePut (credKey "x"), .lockRelease] := rfl
  have h := mutation_lock_discipline (some sampleConfig) (.ok sampleProvider)
    (.ok sampleToken) (.ok sampleToken) { name := "x", code := some "authcode" }
    "x" "k" [] [] [] .none 0 (.err "e") (.err "e")
  refine h.2.1 (Event.storagePut (credKey "x")) ?_ rfl
  rw [hev]
  simp

end OAuthApp
